import Mathlib

/-!
Verification development for the suma-webhook repository.

The definitions below are a shallow embedding of the TypeScript source:

  * src/lib/hmac.ts                  (validateWebhookSignature)
  * src/services/whatsapp-media.ts   (isRetryableStatus, fetchWithRetry,
                                      downloadWhatsAppMedia)
  * src/services/idempotency.ts      (claimMessageId, markMessageProcessed,
                                      markMessageError)
  * api/webhook.ts                   (handleVerification,
                                      handleIncomingWebhook,
                                      extractMessageItems, route handler)
  * api/process-message.ts           (handler, processMessage, saveAndConfirm)

External collaborators (HTTP fetch, Supabase storage, the QStash SDK, the
expense extractor, the outbound WhatsApp sender) are modelled as explicit
outcome parameters, so the control flow of the embedded code is exactly the
control flow of the source.
-/

namespace Suma

/-! ## Character-level string helpers

JavaScript string operations (startsWith, slice, length) act on the sequence
of characters of the string.  We model them on `String.toList` so that the
embedding is elementary and the proofs can use list lemmas. -/

/-- JS `s.startsWith(p)`. -/
def strStartsWith (s p : String) : Bool :=
  List.isPrefixOf p.toList s.toList

/-- JS `s.slice(n)` for a nonnegative `n`. -/
def strDrop (s : String) (n : Nat) : String :=
  String.mk (s.toList.drop n)

/-- JS `s.slice(0, n)` for a nonnegative `n`. -/
def strTake (s : String) (n : Nat) : String :=
  String.mk (s.toList.take n)

/-- JS `s.length` (character count). -/
def strLength (s : String) : Nat :=
  s.toList.length

/-! ## Media fetcher (src/services/whatsapp-media.ts) -/

/-- Constant MAX_RETRIES from whatsapp-media.ts. -/
def MAX_RETRIES : Nat := 3

/-- Constant BASE_DELAY_MS from whatsapp-media.ts. -/
def BASE_DELAY_MS : Nat := 800

/-- An HTTP response as observed by `fetchWithRetry`: status code and the
body text that the code interpolates into error messages. -/
structure Response where
  status : Nat
  body : String
deriving DecidableEq, Repr

/-- JS `Response.ok`: the status is in the inclusive range 200..299. -/
def Response.ok (r : Response) : Bool :=
  decide (200 ≤ r.status) && decide (r.status ≤ 299)

/-- isRetryableStatus from whatsapp-media.ts:
`status === 429 || status >= 500`. -/
def isRetryableStatus (status : Nat) : Bool :=
  status == 429 || decide (500 ≤ status)

/-- Outcome of one call to `fetch`: either a response arrived, or the call
rejected with a network-level error carrying a message. -/
inductive FetchOutcome where
  | resp (r : Response)
  | netErr (msg : String)
deriving Repr

/-- Observable behaviour of one run of `fetchWithRetry`: how many fetch
attempts were made, which backoff delays were slept (in order, in ms), and
the final result (the returned response, or the thrown error message). -/
structure FetchTrace where
  attempts : Nat
  sleeps : List Nat
  result : Except String Response
deriving Repr

/-- The body of one iteration of the retry loop of `fetchWithRetry`.

In the source, a response with `res.ok` is returned; otherwise an error
message is recorded in `lastError`.  The source intends a non-retryable
status to fail immediately, but the `throw` that is supposed to do so sits
inside the `try` block of the same try/catch, so it is caught by the
`catch (err)` arm and recorded in `lastError` exactly like a network error;
the only difference is the text of the message.  This function returns the
response on success and otherwise the message stored in `lastError`. -/
def attemptOutcome (context : String) : FetchOutcome → Except String Response
  | .resp r =>
    if r.ok then .ok r
    else if ¬ isRetryableStatus r.status then
      .error (context ++ " failed: HTTP " ++ toString r.status ++ " — " ++ r.body)
    else
      .error (context ++ ": HTTP " ++ toString r.status ++ " — " ++ r.body)
  | .netErr e => .error e

/-- The retry loop of `fetchWithRetry`.  The source iterates
`for (attempt = 0; attempt <= MAX_RETRIES; attempt++)` and sleeps
`BASE_DELAY_MS * 2 ^ attempt` after every failed attempt with
`attempt < MAX_RETRIES`.  Here `remaining` is `MAX_RETRIES - attempt`, so
the recursion is structural; `fetchWithRetry` starts it at
`attempt = 0, remaining = MAX_RETRIES`.  `seq n` is the outcome of the
fetch call of attempt `n`.  The `?? new Error(...)` fallback of the final
`throw lastError` in the source is unreachable, because every failed
attempt stores a message in `lastError`; the embedding therefore throws the
message of the last attempt directly. -/
def fetchLoop (seq : Nat → FetchOutcome) (context : String) :
    Nat → Nat → FetchTrace
  | attempt, remaining =>
    match attemptOutcome context (seq attempt) with
    | .ok r => { attempts := 1, sleeps := [], result := .ok r }
    | .error msg =>
      match remaining with
      | 0 => { attempts := 1, sleeps := [], result := .error msg }
      | n + 1 =>
        let t := fetchLoop seq context (attempt + 1) n
        { attempts := t.attempts + 1,
          sleeps := BASE_DELAY_MS * 2 ^ attempt :: t.sleeps,
          result := t.result }

/-- fetchWithRetry from whatsapp-media.ts. -/
def fetchWithRetry (seq : Nat → FetchOutcome) (context : String) : FetchTrace :=
  fetchLoop seq context 0 MAX_RETRIES

/-- Downloaded media content (the fields of MediaContent that the pipeline
inspects; the raw bytes are irrelevant to every claim). -/
structure MediaContent where
  mimeType : String
deriving DecidableEq, Repr

/-- Observable behaviour of `downloadWhatsAppMedia`: the trace of the
metadata phase, the trace of the download phase (absent when phase one
threw), and the overall result. -/
structure MediaDownloadTrace where
  metaTrace : FetchTrace
  fileTrace : Option FetchTrace
  result : Except String MediaContent
deriving Repr

/-- downloadWhatsAppMedia from whatsapp-media.ts.  Two phases, each one a
`fetchWithRetry` call: resolve the media id to a download URL, then download
the bytes.  `metaSeq` and `fileSeq` give the per-attempt fetch outcomes of
the two phases, and `mimeOf` models reading `mime_type` from the metadata
response JSON. -/
def downloadWhatsAppMedia (metaSeq fileSeq : Nat → FetchOutcome)
    (mediaId : String) (mimeOf : Response → String) : MediaDownloadTrace :=
  let t1 := fetchWithRetry metaSeq ("Media metadata " ++ mediaId)
  match t1.result with
  | .error e => { metaTrace := t1, fileTrace := none, result := .error e }
  | .ok metaRes =>
    let t2 := fetchWithRetry fileSeq ("Media download " ++ mediaId)
    match t2.result with
    | .error e => { metaTrace := t1, fileTrace := some t2, result := .error e }
    | .ok _ =>
      { metaTrace := t1, fileTrace := some t2,
        result := .ok { mimeType := mimeOf metaRes } }

/-! ## Webhook signature validation (src/lib/hmac.ts)

The SHA-256 HMAC itself is an external primitive (`node:crypto`); the
embedding is parameterized by a digest function
`hmacHex : secret → message → hex string`.  The real digest is always a
64-character lowercase hexadecimal string; theorems that need this assume
`HexDigest64` about the parameter. -/

/-- Numeric value of a hexadecimal digit, if the character is one. -/
def hexVal (c : Char) : Option Nat :=
  if '0' ≤ c ∧ c ≤ '9' then some (c.toNat - '0'.toNat)
  else if 'a' ≤ c ∧ c ≤ 'f' then some (c.toNat - 'a'.toNat + 10)
  else if 'A' ≤ c ∧ c ≤ 'F' then some (c.toNat - 'A'.toNat + 10)
  else none

/-- Node `Buffer.from(s, "hex")`: decodes leading pairs of hex digits into
bytes and stops silently at the first character that is not a hex digit
(a trailing unpaired character is likewise dropped).  A string that is not
entirely hex therefore decodes to a shorter buffer, not to an error. -/
def hexDecodePairs : List Char → List Nat
  | c1 :: c2 :: rest =>
    match hexVal c1, hexVal c2 with
    | some hi, some lo => (16 * hi + lo) :: hexDecodePairs rest
    | _, _ => []
  | _ => []

/-- The digest function returns a 64-character string of hex digits (true
of the hex encoding of every SHA-256 digest). -/
def HexDigest64 (s : String) : Prop :=
  s.toList.length = 64 ∧ ∀ c ∈ s.toList, (hexVal c).isSome = true

/-- validateWebhookSignature from src/lib/hmac.ts.

Returns `.ok b` when the source function returns the boolean `b`, and
`.error e` when it throws.  `node:crypto` `timingSafeEqual` throws a
`RangeError` when its two buffers have different byte lengths; because
`Buffer.from(-, "hex")` truncates at the first non-hex character, a
received hash of the right string length but with a non-hex character
produces a short buffer and makes `timingSafeEqual` throw even though the
function guarded the string lengths. -/
def validateWebhookSignature (hmacHex : String → String → String)
    (rawBody : String) (signature : Option String) (appSecret : String) :
    Except String Bool :=
  match signature with
  | none => .ok false
  | some sig =>
    if sig = "" then .ok false
    else if ¬ strStartsWith sig "sha256=" then .ok false
    else
      let expectedHash := hmacHex appSecret rawBody
      let receivedHash := strDrop sig 7
      if strLength expectedHash ≠ strLength receivedHash then .ok false
      else
        let expectedBytes := hexDecodePairs expectedHash.toList
        let receivedBytes := hexDecodePairs receivedHash.toList
        if expectedBytes.length ≠ receivedBytes.length then
          .error "RangeError: Input buffers must have the same byte length"
        else .ok (decide (expectedBytes = receivedBytes))

/-! ## Ingress handler (api/webhook.ts, thin-handler version)

The JSON decoder is modelled as a parameter `parse` applied to the raw body
after the signature gate, and the QStash publish calls as a per-index
success predicate `publishOk`; `Promise.allSettled` starts every publish
regardless of the outcome of the others, which the result records in its
`attempted` field. -/

/-- One message of the provider payload, with the fields the pipeline
reads.  `text` is the body of an optional `text` object, `audioId` the id
of an optional `audio` object, and `imageId`, `imageCaption` the id and
optional caption of an optional `image` object. -/
structure WhatsAppMessage where
  id : String
  /-- The source names this field `from` (a reserved word in Lean). -/
  sender : String
  type : String
  text : Option String
  audioId : Option String
  imageId : Option String
  imageCaption : Option String
deriving DecidableEq, Repr

/-- The `value` object of one webhook change. -/
structure ChangeValue where
  phone_number_id : String
  display_phone_number : String
  contacts : List String
  messages : Option (List WhatsAppMessage)
deriving DecidableEq, Repr

/-- One element of `entry[i].changes`.  The source reads `change.value`
with optional chaining, so the value is optional here. -/
structure WhatsAppChange where
  field : String
  value : Option ChangeValue
deriving DecidableEq, Repr

/-- One element of `body.entry`.  The source folds missing arrays to `[]`
with `?? []`, modelled by the options. -/
structure WhatsAppEntry where
  id : String
  changes : Option (List WhatsAppChange)
deriving DecidableEq, Repr

/-- The decoded webhook body. -/
structure WhatsAppWebhookBody where
  object : String
  entry : Option (List WhatsAppEntry)
deriving DecidableEq, Repr

/-- One unit of work enqueued per extracted message (QueuedMessagePayload
without the wall-clock receipt timestamp, which the claims never read). -/
structure MessageItem where
  message : WhatsAppMessage
  contacts : List String
  phone_number_id : String
  display_phone_number : String
deriving DecidableEq, Repr

/-- extractMessageItems from api/webhook.ts: every message of every change
whose field is "messages", skipping entries and changes without messages. -/
def extractMessageItems (body : WhatsAppWebhookBody) : List MessageItem :=
  (body.entry.getD []).flatMap (fun entry =>
    (entry.changes.getD []).flatMap (fun change =>
      if change.field ≠ "messages" then []
      else
        match change.value with
        | none => []
        | some v =>
          match v.messages with
          | none => []
          | some msgs =>
            msgs.map (fun m =>
              { message := m, contacts := v.contacts,
                phone_number_id := v.phone_number_id,
                display_phone_number := v.display_phone_number })))

/-- HTTP responses of the ingress endpoint.  `crash` stands for an
exception escaping the handler (the platform then answers with a generic
server error, not with the 401 of the signature gate). -/
inductive IngressResp where
  | okChallenge (challenge : Option String)
  | forbidden
  | unauthorized
  | okIgnored
  | okNoMessages
  | okQueued (count : Nat)
  | methodNotAllowed
  | crash (msg : String)
deriving DecidableEq, Repr

/-- Result of one ingress invocation: the response, the publishes that were
started (`Promise.allSettled` starts one per extracted item), and the
publishes that fulfilled. -/
structure IngressResult where
  response : IngressResp
  attempted : List MessageItem
  enqueued : List MessageItem
deriving DecidableEq, Repr

/-- Steps 2-7 of handleIncomingWebhook: everything after the signature
gate.  Responds 200 in every case; enqueue failures are only logged. -/
def processWebhookBody (body : WhatsAppWebhookBody)
    (publishOk : Nat → Bool) : IngressResult :=
  if body.object ≠ "whatsapp_business_account" then
    { response := .okIgnored, attempted := [], enqueued := [] }
  else
    let items := extractMessageItems body
    if items.length = 0 then
      { response := .okNoMessages, attempted := [], enqueued := [] }
    else
      { response := .okQueued items.length,
        attempted := items,
        enqueued := (items.enum.filter (fun p => publishOk p.1)).map Prod.snd }

/-- handleIncomingWebhook from api/webhook.ts.  The raw body is captured
before any parsing; the signature is validated over it; on validation
failure the handler answers 401 and nothing is published.  A thrown
validation error escapes the handler (`crash`). -/
def handleIncomingWebhook (hmacHex : String → String → String)
    (parse : String → WhatsAppWebhookBody) (appSecret rawBody : String)
    (signature : Option String) (publishOk : Nat → Bool) : IngressResult :=
  match validateWebhookSignature hmacHex rawBody signature appSecret with
  | .error e => { response := .crash e, attempted := [], enqueued := [] }
  | .ok false => { response := .unauthorized, attempted := [], enqueued := [] }
  | .ok true => processWebhookBody (parse rawBody) publishOk

/-- Query parameters of the GET handshake. -/
structure VerifyQuery where
  mode : Option String
  verify_token : Option String
  challenge : Option String
deriving DecidableEq, Repr

/-- handleVerification from api/webhook.ts: 200 echoing the challenge when
the mode is "subscribe" and the token matches the configured one, 403
otherwise.  No side effects. -/
def handleVerification (cfgVerifyToken : String) (q : VerifyQuery) :
    IngressResp :=
  if q.mode = some "subscribe" ∧ q.verify_token = some cfgVerifyToken then
    .okChallenge q.challenge
  else .forbidden

/-- The default export of api/webhook.ts: route by method. -/
def webhookRoute (hmacHex : String → String → String)
    (parse : String → WhatsAppWebhookBody)
    (cfgVerifyToken appSecret : String) (method : String) (q : VerifyQuery)
    (rawBody : String) (signature : Option String)
    (publishOk : Nat → Bool) : IngressResult :=
  match method with
  | "GET" =>
    { response := handleVerification cfgVerifyToken q,
      attempted := [], enqueued := [] }
  | "POST" =>
    handleIncomingWebhook hmacHex parse appSecret rawBody signature publishOk
  | _ => { response := .methodNotAllowed, attempted := [], enqueued := [] }

/-! ## Idempotency ledger (src/services/idempotency.ts)

The `processed_messages` table is a list of rows keyed by `wamid`; the
Supabase insert either executes the SQL semantics (unique violation 23505
when the key exists) or, through the `fault` parameter, reports an
arbitrary backend error instead of executing. -/

/-- One row of the processed_messages table. -/
structure ProcessedRow where
  wamid : String
  user_phone : String
  processed : Bool
  error : Option String
deriving DecidableEq, Repr

/-- The processed_messages table. -/
abbrev Ledger := List ProcessedRow

/-- Whether the table holds a row for the given message id. -/
def ledgerHas (led : Ledger) (wamid : String) : Bool :=
  led.any (fun r => r.wamid = wamid)

/-- Result of the Supabase insert as claimMessageId observes it. -/
inductive InsertResult where
  | created
  | errorCode (code : String) (msg : String)
deriving DecidableEq, Repr

/-- The insert into processed_messages.  Without a fault it follows the SQL
semantics: a row whose primary key exists raises unique violation 23505,
otherwise the row is created with `processed = false` and no error text.
A fault delivers a backend error code instead. -/
def supabaseInsertProcessed (led : Ledger) (wamid phone : String)
    (fault : Option (String × String)) : Ledger × InsertResult :=
  match fault with
  | some (code, msg) => (led, .errorCode code msg)
  | none =>
    if ledgerHas led wamid then
      (led, .errorCode "23505" "duplicate key value violates unique constraint")
    else
      (led ++ [{ wamid := wamid, user_phone := phone,
                 processed := false, error := none }], .created)

/-- claimMessageId from src/services/idempotency.ts: `.ok true` when the
insert created the row, `.ok false` on error code 23505, and a thrown
error (`.error`) on any other storage error code. -/
def claimMessageId (led : Ledger) (wamid phone : String)
    (fault : Option (String × String)) : Ledger × Except String Bool :=
  match supabaseInsertProcessed led wamid phone fault with
  | (led2, .created) => (led2, .ok true)
  | (led2, .errorCode code msg) =>
    if code = "23505" then (led2, .ok false)
    else (led2, .error ("Idempotency check failed: " ++ msg))

/-- markMessageProcessed: set `processed = true` on the row of the id. -/
def markMessageProcessed (led : Ledger) (wamid : String) : Ledger :=
  led.map (fun r =>
    if r.wamid = wamid then { r with processed := true } else r)

/-- markMessageError: record the error text, truncated to 500 characters
(`errorMessage.slice(0, 500)`), on the row of the id. -/
def markMessageError (led : Ledger) (wamid errMsg : String) : Ledger :=
  led.map (fun r =>
    if r.wamid = wamid then { r with error := some (strTake errMsg 500) }
    else r)

/-! ## Worker pipeline (api/process-message.ts)

All side-effecting collaborators are outcome parameters in `WorkerEnv`.
Observable side effects are recorded as an event list: the media fetch, the
extractor call, the transaction insert, and the two kinds of outbound
reply.  The only state carried from one delivery to the next is the
processed_messages table (the idempotency ledger). -/

/-- A structured expense as the extractor returns it. -/
structure ParsedExpense where
  amount : Int
  description : String
  category : String
deriving DecidableEq, Repr

/-- Observable side effects of one worker delivery, each tagged with the
message id being processed. -/
inductive Event where
  | mediaFetch (wamid : String)
  | extractCall (wamid : String)
  | txInsert (wamid : String)
  | confirmReply (wamid : String)
  | helpReply (wamid : String)
deriving DecidableEq, Repr

/-- The message id an event is tagged with. -/
def Event.wamid : Event → String
  | .mediaFetch w => w
  | .extractCall w => w
  | .txInsert w => w
  | .confirmReply w => w
  | .helpReply w => w

/-- Outcomes of the external collaborators during one delivery attempt.
`.error` means the corresponding call threw/rejected. -/
structure WorkerEnv where
  brokerSigValid : Bool
  claimFault : Option (String × String)
  parseResult : Except String (Option ParsedExpense)
  mediaResult : Except String MediaContent
  upsertUserResult : Except String String
  saveResult : Except String Unit
  sendResult : Except String Unit

/-- HTTP responses of the worker endpoint. `crash` stands for an exception
thrown outside the try/catch (the claim step), which escapes the handler. -/
inductive WorkerResp where
  | methodNotAllowed
  | unauthorized (msg : String)
  | okProcessed (wamid : String)
  | okDuplicate (wamid : String)
  | failure (wamid : String)
  | crash (msg : String)
deriving DecidableEq, Repr

/-- One QStash delivery as the worker receives it. -/
structure Delivery where
  method : String
  signature : Option String
  msg : WhatsAppMessage
  env : WorkerEnv

/-- The sender normalization `msg.from.replace(/^549/, "54")`. -/
def normalizePhone (phone : String) : String :=
  if strStartsWith phone "549" then "54" ++ strDrop phone 3 else phone

/-- saveAndConfirm from api/process-message.ts: upsert the user, insert the
transaction, then send the confirmation reply; any rejection propagates.
Returns the events that happened before the optional thrown error. -/
def saveAndConfirm (wamid : String) (env : WorkerEnv) :
    List Event × Option String :=
  match env.upsertUserResult with
  | .error e => ([], some e)
  | .ok _ =>
    match env.saveResult with
    | .error e => ([], some e)
    | .ok _ =>
      match env.sendResult with
      | .error e => ([.txInsert wamid], some e)
      | .ok _ => ([.txInsert wamid, .confirmReply wamid], none)

/-- processMessage from api/process-message.ts.  Returns the events emitted
and, when a collaborator threw, the error that propagates to the catch of
the handler.  For a text message the source reads `msg.text?.body` and
returns silently when it is absent or empty (`if (!text) return` and the
empty string is falsy in JS); for audio and image it first downloads the
media; for every other type it is a no-op.  An extractor result of `null`
sends a help or guidance reply and returns without error. -/
def processMessage (msg : WhatsAppMessage) (env : WorkerEnv) :
    List Event × Option String :=
  if msg.type = "text" then
    match msg.text with
    | none => ([], none)
    | some t =>
      if t = "" then ([], none)
      else
        match env.parseResult with
        | .error e => ([.extractCall msg.id], some e)
        | .ok none =>
          match env.sendResult with
          | .error e => ([.extractCall msg.id], some e)
          | .ok _ => ([.extractCall msg.id, .helpReply msg.id], none)
        | .ok (some _) =>
          match saveAndConfirm msg.id env with
          | (evs, err) => (.extractCall msg.id :: evs, err)
  else if msg.type = "audio" then
    match msg.audioId with
    | none => ([], none)
    | some _ =>
      match env.mediaResult with
      | .error e => ([.mediaFetch msg.id], some e)
      | .ok _ =>
        match env.parseResult with
        | .error e => ([.mediaFetch msg.id, .extractCall msg.id], some e)
        | .ok none =>
          match env.sendResult with
          | .error e => ([.mediaFetch msg.id, .extractCall msg.id], some e)
          | .ok _ =>
            ([.mediaFetch msg.id, .extractCall msg.id, .helpReply msg.id],
             none)
        | .ok (some _) =>
          match saveAndConfirm msg.id env with
          | (evs, err) =>
            (.mediaFetch msg.id :: .extractCall msg.id :: evs, err)
  else if msg.type = "image" then
    match msg.imageId with
    | none => ([], none)
    | some _ =>
      match env.mediaResult with
      | .error e => ([.mediaFetch msg.id], some e)
      | .ok _ =>
        match env.parseResult with
        | .error e => ([.mediaFetch msg.id, .extractCall msg.id], some e)
        | .ok none =>
          match env.sendResult with
          | .error e => ([.mediaFetch msg.id, .extractCall msg.id], some e)
          | .ok _ =>
            ([.mediaFetch msg.id, .extractCall msg.id, .helpReply msg.id],
             none)
        | .ok (some _) =>
          match saveAndConfirm msg.id env with
          | (evs, err) =>
            (.mediaFetch msg.id :: .extractCall msg.id :: evs, err)
  else ([], none)

/-- The default export of api/process-message.ts.  Method check, broker
signature check, idempotency claim (before the try/catch: a claim throw
escapes the handler), then the pipeline; on pipeline success the row is
marked processed and the worker answers 200, on a thrown error the row is
annotated and the worker answers 500 so QStash retries.  The claim is
never rolled back. -/
def processDelivery (led : Ledger) (d : Delivery) :
    Ledger × WorkerResp × List Event :=
  if d.method ≠ "POST" then (led, .methodNotAllowed, [])
  else
    match d.signature with
    | none => (led, .unauthorized "Missing QStash signature", [])
    | some _ =>
      if ¬ d.env.brokerSigValid then
        (led, .unauthorized "Invalid signature", [])
      else
        let phone := normalizePhone d.msg.sender
        match claimMessageId led d.msg.id phone d.env.claimFault with
        | (led2, .error e) => (led2, .crash e, [])
        | (led2, .ok false) => (led2, .okDuplicate d.msg.id, [])
        | (led2, .ok true) =>
          match processMessage d.msg d.env with
          | (evs, none) =>
            (markMessageProcessed led2 d.msg.id, .okProcessed d.msg.id, evs)
          | (evs, some e) =>
            (markMessageError led2 d.msg.id e, .failure d.msg.id, evs)

/-- Run a sequence of worker deliveries, threading the ledger and
concatenating the emitted events. -/
def runDeliveries (led : Ledger) : List Delivery → Ledger × List Event
  | [] => (led, [])
  | d :: ds =>
    let s := processDelivery led d
    let r := runDeliveries s.1 ds
    (r.1, s.2.2 ++ r.2)

/-- Number of transaction inserts recorded for a message id. -/
def countTx (evs : List Event) (m : String) : Nat :=
  evs.countP (fun e => match e with | .txInsert w => w == m | _ => false)

/-- Number of success-confirmation replies recorded for a message id. -/
def countConfirm (evs : List Event) (m : String) : Nat :=
  evs.countP (fun e => match e with | .confirmReply w => w == m | _ => false)

/-- Number of help or guidance replies recorded for a message id. -/
def countHelp (evs : List Event) (m : String) : Nat :=
  evs.countP (fun e => match e with | .helpReply w => w == m | _ => false)

/-- First row of the table with the given message id. -/
def findRow (led : Ledger) (wamid : String) : Option ProcessedRow :=
  led.find? (fun r => r.wamid = wamid)

/-! ## Concrete inputs used by witnesses and counterexamples -/

/-- A fetch sequence that answers HTTP 404 on every attempt. -/
def seq404 : Nat → FetchOutcome :=
  fun _ => .resp { status := 404, body := "Not Found" }

/-- A fetch sequence: HTTP 503 on the first three attempts, then HTTP 200. -/
def seq503then200 : Nat → FetchOutcome := fun n =>
  if n < 3 then .resp { status := 503, body := "Service Unavailable" }
  else .resp { status := 200, body := "payload" }

/-- A fetch sequence that answers HTTP 503 on every attempt. -/
def seq503always : Nat → FetchOutcome :=
  fun _ => .resp { status := 503, body := "Service Unavailable" }

/-- A stand-in digest value: 64 hex digits (as every SHA-256 hex digest). -/
def digest64zeros : String :=
  "0000000000000000000000000000000000000000000000000000000000000000"

/-- A stand-in digest function for concrete instantiations; like the real
HMAC it always returns 64 hex digits. -/
def hmacConst : String → String → String := fun _ _ => digest64zeros

/-- Sixty-four characters that are not hex digits. -/
def zHex64 : String :=
  "zzzzzzzzzzzzzzzzzzzzzzzzzzzzzzzzzzzzzzzzzzzzzzzzzzzzzzzzzzzzzzzz"

/-- A signature header with the right prefix and the right length whose
hex part contains no valid hex digit. -/
def zSig64 : String := "sha256=" ++ zHex64

/-- A webhook body with the expected object tag and no entries. -/
def bodyNoEntries : WhatsAppWebhookBody :=
  { object := "whatsapp_business_account", entry := some [] }

/-- A JSON decoder stand-in returning `bodyNoEntries` for every raw body. -/
def parseConst : String → WhatsAppWebhookBody := fun _ => bodyNoEntries

/-- A publish outcome where every enqueue fulfills. -/
def pubAllOk : Nat → Bool := fun _ => true

/-- A publish outcome where the first enqueue rejects and the rest
fulfill. -/
def pubFailFirst : Nat → Bool := fun n => decide (n ≠ 0)

/-- A concrete provider text message. -/
def msgText1 : WhatsAppMessage :=
  { id := "wamid.AAA1", sender := "5491155550000", type := "text",
    text := some "hola que tal", audioId := none, imageId := none,
    imageCaption := none }

/-- A second concrete provider text message. -/
def msgText2 : WhatsAppMessage :=
  { id := "wamid.AAA2", sender := "5491155550001", type := "text",
    text := some "gasté 5000 en pizza", audioId := none, imageId := none,
    imageCaption := none }

/-- A webhook body carrying two messages in one change. -/
def bodyTwoMessages : WhatsAppWebhookBody :=
  { object := "whatsapp_business_account",
    entry := some
      [{ id := "entry1",
         changes := some
           [{ field := "messages",
              value := some
                { phone_number_id := "pn1",
                  display_phone_number := "54911000",
                  contacts := ["5491155550000"],
                  messages := some [msgText1, msgText2] } }] }] }

/-- A JSON decoder stand-in returning `bodyTwoMessages`. -/
def parseTwoMessages : String → WhatsAppWebhookBody := fun _ => bodyTwoMessages

/-- A worker environment where every collaborator succeeds and the
extractor returns null (unrecognized input). -/
def envParseNull : WorkerEnv :=
  { brokerSigValid := true, claimFault := none, parseResult := .ok none,
    mediaResult := .ok { mimeType := "image/jpeg" },
    upsertUserResult := .ok "user-1", saveResult := .ok (),
    sendResult := .ok () }

/-- A concrete worker delivery of `msgText1` under `envParseNull`. -/
def deliveryTextNull : Delivery :=
  { method := "POST", signature := some "upstash-sig", msg := msgText1,
    env := envParseNull }

/-- A ledger row claiming the id of `msgText1`. -/
def rowMsg1 : ProcessedRow :=
  { wamid := "wamid.AAA1", user_phone := "5491155550000",
    processed := false, error := none }

/-! # Theorems -/

/-! ## Media fetcher: retry policy -/

/-- A transient status (429 or at least 500) is never a 2xx status. -/
theorem retryable_not_ok (r : Response) (h : isRetryableStatus r.status = true) :
    r.ok = false := by
  unfold isRetryableStatus at h
  unfold Response.ok
  simp only [Bool.or_eq_true, beq_iff_eq, decide_eq_true_eq] at h
  simp only [Bool.and_eq_false_iff, decide_eq_false_iff_not]
  omega

/-- The retry loop makes at most `remaining + 1` fetch attempts. -/
theorem fetchLoop_attempts_le (seq : Nat → FetchOutcome) (ctx : String) :
    ∀ (remaining attempt : Nat),
      (fetchLoop seq ctx attempt remaining).attempts ≤ remaining + 1 := by
  intro remaining
  induction remaining with
  | zero =>
    intro a
    unfold fetchLoop
    cases attemptOutcome ctx (seq a) <;> simp
  | succ n ih =>
    intro a
    unfold fetchLoop
    cases attemptOutcome ctx (seq a) with
    | ok r => simp
    | error msg =>
      simpa using Nat.succ_le_succ (ih (a + 1))

/-- C2: the spec and the code's own comment say a non-transient HTTP error
(4xx other than 429, e.g. 404) fails immediately with zero retries; the
code instead retries it, because the `throw` meant to fail fast sits inside
the `try` block and is caught by the sibling `catch`.  At an input whose
every fetch attempt returns HTTP 404, the metadata phase of
`downloadWhatsAppMedia` makes 4 attempts and sleeps the full backoff
schedule 800, 1600, 3200 ms before failing. -/
theorem C2_http404_is_retried :
    fetchWithRetry seq404 "Media metadata m1" =
      { attempts := 4, sleeps := [800, 1600, 3200],
        result := .error "Media metadata m1 failed: HTTP 404 — Not Found" } ∧
    (downloadWhatsAppMedia seq404 seq404 "m1" Response.body).metaTrace.attempts
      = 4 := by
  constructor <;> rfl

/-- C6: each media fetch phase makes at most 4 HTTP attempts with backoff
sleeps of 800, 1600 and 3200 ms between consecutive attempts; three
transient failures followed by a 2xx response yield that response after all
three sleeps; four transient failures raise the error recorded for the last
attempt. -/
theorem C6_retry_schedule :
    (∀ (seq : Nat → FetchOutcome) (ctx : String),
      (fetchWithRetry seq ctx).attempts ≤ 4) ∧
    (∀ (seq : Nat → FetchOutcome) (ctx : String) (r0 r1 r2 r3 : Response),
      seq 0 = .resp r0 → isRetryableStatus r0.status = true →
      seq 1 = .resp r1 → isRetryableStatus r1.status = true →
      seq 2 = .resp r2 → isRetryableStatus r2.status = true →
      seq 3 = .resp r3 → r3.ok = true →
      fetchWithRetry seq ctx =
        { attempts := 4, sleeps := [800, 1600, 3200], result := .ok r3 }) ∧
    (∀ (seq : Nat → FetchOutcome) (ctx : String) (r0 r1 r2 r3 : Response),
      seq 0 = .resp r0 → isRetryableStatus r0.status = true →
      seq 1 = .resp r1 → isRetryableStatus r1.status = true →
      seq 2 = .resp r2 → isRetryableStatus r2.status = true →
      seq 3 = .resp r3 → isRetryableStatus r3.status = true →
      fetchWithRetry seq ctx =
        { attempts := 4, sleeps := [800, 1600, 3200],
          result := .error
            (ctx ++ ": HTTP " ++ toString r3.status ++ " — " ++ r3.body) }) := by
  refine ⟨?_, ?_, ?_⟩
  · intro seq ctx
    exact fetchLoop_attempts_le seq ctx MAX_RETRIES 0
  · intro seq ctx r0 r1 r2 r3 h0 t0 h1 t1 h2 t2 h3 ok3
    simp only [fetchWithRetry, MAX_RETRIES]
    simp only [fetchLoop, h0, h1, h2, h3, attemptOutcome,
      retryable_not_ok r0 t0, retryable_not_ok r1 t1, retryable_not_ok r2 t2,
      t0, t1, t2, ok3, BASE_DELAY_MS]
    norm_num
  · intro seq ctx r0 r1 r2 r3 h0 t0 h1 t1 h2 t2 h3 t3
    simp only [fetchWithRetry, MAX_RETRIES]
    simp only [fetchLoop, h0, h1, h2, h3, attemptOutcome,
      retryable_not_ok r0 t0, retryable_not_ok r1 t1, retryable_not_ok r2 t2,
      retryable_not_ok r3 t3, t0, t1, t2, t3, BASE_DELAY_MS]
    norm_num

/-- Witness for C6: HTTP 503 three times then 200 succeeds with the full
backoff schedule; HTTP 503 on every attempt exhausts the four attempts and
throws the last failure. -/
theorem C6_retry_schedule_witness :
    (fetchWithRetry seq503then200 "Media download m1").attempts ≤ 4 ∧
    fetchWithRetry seq503then200 "Media download m1" =
      { attempts := 4, sleeps := [800, 1600, 3200],
        result := .ok { status := 200, body := "payload" } } ∧
    fetchWithRetry seq503always "Media download m1" =
      { attempts := 4, sleeps := [800, 1600, 3200],
        result := .error "Media download m1: HTTP 503 — Service Unavailable" } := by
  refine ⟨C6_retry_schedule.1 seq503then200 _,
    C6_retry_schedule.2.1 seq503then200 "Media download m1"
      { status := 503, body := "Service Unavailable" }
      { status := 503, body := "Service Unavailable" }
      { status := 503, body := "Service Unavailable" }
      { status := 200, body := "payload" }
      rfl rfl rfl rfl rfl rfl rfl rfl,
    C6_retry_schedule.2.2 seq503always "Media download m1"
      { status := 503, body := "Service Unavailable" }
      { status := 503, body := "Service Unavailable" }
      { status := 503, body := "Service Unavailable" }
      { status := 503, body := "Service Unavailable" }
      rfl rfl rfl rfl rfl rfl rfl rfl⟩

/-! ## Signature validation -/

/-- A list of hex digits decodes to one byte per pair of characters. -/
theorem hexDecodePairs_length_of_valid :
    ∀ l : List Char, (∀ c ∈ l, (hexVal c).isSome = true) →
      (hexDecodePairs l).length = l.length / 2
  | [], _ => rfl
  | [c], _ => by simp [hexDecodePairs]
  | c1 :: c2 :: rest, h => by
    have h1 : (hexVal c1).isSome = true := h c1 (by simp)
    have h2 : (hexVal c2).isSome = true := h c2 (by simp)
    rcases Option.isSome_iff_exists.mp h1 with ⟨hi, e1⟩
    rcases Option.isSome_iff_exists.mp h2 with ⟨lo, e2⟩
    have ih := hexDecodePairs_length_of_valid rest
      (fun c hc => h c (by simp [hc]))
    simp only [hexDecodePairs, e1, e2, List.length_cons, ih]
    omega

/-- String toList distributes over append. -/
theorem strToList_append (a b : String) :
    (a ++ b).toList = a.toList ++ b.toList := by
  cases a; cases b; rfl

/-- Dropping the "sha256=" tag from a tagged string leaves the payload. -/
theorem strDrop_sha256_append (d : String) :
    strDrop ("sha256=" ++ d) 7 = d := by
  obtain ⟨l⟩ := d
  show String.mk ((("sha256=" : String) ++ String.mk l).toList.drop 7)
    = String.mk l
  rw [strToList_append]
  show String.mk (((("sha256=" : String)).toList ++ l).drop
    (("sha256=" : String).toList.length)) = String.mk l
  rw [List.drop_left]

/-- A string bearing the "sha256=" tag is not empty. -/
theorem ne_empty_of_sha256_tag (s : String)
    (h : strStartsWith s "sha256=" = true) : s ≠ "" := by
  intro he
  subst he
  simp [strStartsWith, List.isPrefixOf] at h

/-- The canonical correct header, "sha256=" followed by the digest of the
raw body under the secret, always validates to true. -/
theorem validate_canonical_sig (hmacHex : String → String → String)
    (appSecret rawBody : String) :
    validateWebhookSignature hmacHex rawBody
      (some ("sha256=" ++ hmacHex appSecret rawBody)) appSecret = .ok true := by
  have hne : ("sha256=" ++ hmacHex appSecret rawBody) ≠ "" := by
    intro h
    have h2 := congrArg String.toList h
    rw [strToList_append] at h2
    simp [String.toList] at h2
  have hpre : strStartsWith ("sha256=" ++ hmacHex appSecret rawBody)
      "sha256=" = true := by
    unfold strStartsWith
    rw [strToList_append]
    simp [List.isPrefixOf_iff_prefix]
  simp [validateWebhookSignature, hne, hpre, strDrop_sha256_append]

/-- C10 (code bug): at a signature of the form "sha256=" followed by 64
characters that are not hex digits, validateWebhookSignature throws instead
of returning false: the string lengths match, but Buffer.from truncates the
received hash at the first non-hex character, and timingSafeEqual raises a
RangeError on buffers of different byte lengths. -/
theorem C10_malformed_hex_signature_throws
    (hmacHex : String → String → String) (appSecret rawBody : String)
    (hd : HexDigest64 (hmacHex appSecret rawBody)) :
    validateWebhookSignature hmacHex rawBody (some zSig64) appSecret =
      .error "RangeError: Input buffers must have the same byte length" := by
  have hne : zSig64 ≠ "" := by decide
  have hpre : strStartsWith zSig64 "sha256=" = true := by decide
  have hdrop : strDrop zSig64 7 = zHex64 := by decide
  have hlen_r : strLength zHex64 = 64 := by decide
  have hz : hexDecodePairs zHex64.toList = [] := by decide
  have hlen_e : strLength (hmacHex appSecret rawBody) = 64 := hd.1
  have hdec_e : (hexDecodePairs (hmacHex appSecret rawBody).toList).length
      = 32 := by
    rw [hexDecodePairs_length_of_valid _ hd.2, hd.1]
  have hz2 : (hexDecodePairs zHex64.data).length = 0 := by decide
  have hdec_e2 : (hexDecodePairs (hmacHex appSecret rawBody).data).length
      = 32 := hdec_e
  simp [validateWebhookSignature, hne, hpre, hdrop, hlen_r, hlen_e, hz2,
    hdec_e2]

/-- Witness for C10: a digest function returning 64 hex digits satisfies
the hypothesis, and the validator throws at the malformed signature. -/
theorem C10_malformed_hex_signature_throws_witness :
    HexDigest64 (hmacConst "secret" "rawbody") ∧
    validateWebhookSignature hmacConst "rawbody" (some zSig64) "secret" =
      .error "RangeError: Input buffers must have the same byte length" :=
  ⟨by constructor <;> decide,
   C10_malformed_hex_signature_throws hmacConst "secret" "rawbody"
     (by constructor <;> decide)⟩

/-! ## Ingress: POST signature gate -/

/-- Counterexample to C3 as stated: a POST whose header is not "sha256="
followed by the hex digest of the body does not always get a 401 — when the
64 characters after the tag are not hex digits, signature validation throws
and the handler dies with a RangeError instead of answering 401 (it still
publishes nothing). -/
theorem C3_counterexample :
    some zSig64 ≠ some ("sha256=" ++ hmacConst "secret" "{}") ∧
    (handleIncomingWebhook hmacConst parseConst "secret" "{}" (some zSig64)
        pubAllOk).response ≠ IngressResp.unauthorized ∧
    handleIncomingWebhook hmacConst parseConst "secret" "{}" (some zSig64)
        pubAllOk =
      { response :=
          .crash "RangeError: Input buffers must have the same byte length",
        attempted := [], enqueued := [] } := by
  refine ⟨by decide, by decide, by decide⟩

/-- C3 as amended: with a digest function returning 64 hex digits, a POST
whose signature header is absent, lacks the "sha256=" tag, carries a hex
part of the wrong length, or carries 64 hex digits decoding to bytes other
than the digest bytes, is answered 401 with nothing published; a header
with 64 characters after the tag that do not decode fully (a non-hex
character is present) makes validation throw, so the handler crashes — and
still publishes nothing — instead of answering 401; the canonical header
"sha256=" followed by the digest of the exact raw body validates to true
and the handler proceeds to process the parsed body. -/
theorem C3_signature_gate (hmacHex : String → String → String)
    (parse : String → WhatsAppWebhookBody) (appSecret rawBody : String)
    (publishOk : Nat → Bool)
    (hd : HexDigest64 (hmacHex appSecret rawBody)) :
    (handleIncomingWebhook hmacHex parse appSecret rawBody none publishOk =
      { response := .unauthorized, attempted := [], enqueued := [] }) ∧
    (∀ s, strStartsWith s "sha256=" = false →
      handleIncomingWebhook hmacHex parse appSecret rawBody (some s)
          publishOk =
        { response := .unauthorized, attempted := [], enqueued := [] }) ∧
    (∀ s, strStartsWith s "sha256=" = true →
      strLength (strDrop s 7) ≠ 64 →
      handleIncomingWebhook hmacHex parse appSecret rawBody (some s)
          publishOk =
        { response := .unauthorized, attempted := [], enqueued := [] }) ∧
    (∀ s, strStartsWith s "sha256=" = true →
      strLength (strDrop s 7) = 64 →
      (hexDecodePairs (strDrop s 7).toList).length = 32 →
      hexDecodePairs (strDrop s 7).toList ≠
        hexDecodePairs (hmacHex appSecret rawBody).toList →
      handleIncomingWebhook hmacHex parse appSecret rawBody (some s)
          publishOk =
        { response := .unauthorized, attempted := [], enqueued := [] }) ∧
    (∀ s, strStartsWith s "sha256=" = true →
      strLength (strDrop s 7) = 64 →
      (hexDecodePairs (strDrop s 7).toList).length ≠ 32 →
      handleIncomingWebhook hmacHex parse appSecret rawBody (some s)
          publishOk =
        { response :=
            .crash "RangeError: Input buffers must have the same byte length",
          attempted := [], enqueued := [] }) ∧
    (validateWebhookSignature hmacHex rawBody
        (some ("sha256=" ++ hmacHex appSecret rawBody)) appSecret =
      .ok true ∧
     handleIncomingWebhook hmacHex parse appSecret rawBody
        (some ("sha256=" ++ hmacHex appSecret rawBody)) publishOk =
      processWebhookBody (parse rawBody) publishOk) := by
  have hlen_e : strLength (hmacHex appSecret rawBody) = 64 := hd.1
  have hdec_e : (hexDecodePairs (hmacHex appSecret rawBody).toList).length
      = 32 := by
    rw [hexDecodePairs_length_of_valid _ hd.2, hd.1]
  refine ⟨?_, ?_, ?_, ?_, ?_, ?_, ?_⟩
  · simp [handleIncomingWebhook, validateWebhookSignature]
  · intro s hs
    by_cases he : s = ""
    · simp [handleIncomingWebhook, validateWebhookSignature, he]
    · simp [handleIncomingWebhook, validateWebhookSignature, he, hs]
  · intro s hs hl
    have he := ne_empty_of_sha256_tag s hs
    simp only [handleIncomingWebhook, validateWebhookSignature, he, hs]
    have : strLength (hmacHex appSecret rawBody) ≠
        strLength (strDrop s 7) := by omega
    simp [this]
  · intro s hs hl hfull hne
    have he := ne_empty_of_sha256_tag s hs
    simp only [handleIncomingWebhook, validateWebhookSignature, he, hs]
    have hll : strLength (hmacHex appSecret rawBody) =
        strLength (strDrop s 7) := by omega
    have hbl : (hexDecodePairs (hmacHex appSecret rawBody).toList).length =
        (hexDecodePairs (strDrop s 7).toList).length := by omega
    have hbl2 : (hexDecodePairs (hmacHex appSecret rawBody).data).length =
        (hexDecodePairs (strDrop s 7).data).length := hbl
    have hneq2 : hexDecodePairs (hmacHex appSecret rawBody).data ≠
        hexDecodePairs (strDrop s 7).data := fun h => hne h.symm
    simp [hll, hbl2, hneq2]
  · intro s hs hl hpart
    have he := ne_empty_of_sha256_tag s hs
    simp only [handleIncomingWebhook, validateWebhookSignature, he, hs]
    have hll : strLength (hmacHex appSecret rawBody) =
        strLength (strDrop s 7) := by omega
    have hbl2 : (hexDecodePairs (hmacHex appSecret rawBody).data).length ≠
        (hexDecodePairs (strDrop s 7).data).length := by
      show (hexDecodePairs (hmacHex appSecret rawBody).toList).length ≠
        (hexDecodePairs (strDrop s 7).toList).length
      omega
    simp [hll, hbl2]
  · exact validate_canonical_sig hmacHex appSecret rawBody
  · simp [handleIncomingWebhook, validate_canonical_sig hmacHex appSecret
      rawBody]

/-- Witness for C3: each clause of the gate theorem instantiated at a
concrete input. -/
theorem C3_signature_gate_witness :
    (handleIncomingWebhook hmacConst parseConst "secret" "{}" none pubAllOk =
      { response := .unauthorized, attempted := [], enqueued := [] }) ∧
    (handleIncomingWebhook hmacConst parseConst "secret" "{}" (some "bogus")
        pubAllOk =
      { response := .unauthorized, attempted := [], enqueued := [] }) ∧
    (handleIncomingWebhook hmacConst parseConst "secret" "{}"
        (some "sha256=abc") pubAllOk =
      { response := .unauthorized, attempted := [], enqueued := [] }) ∧
    (handleIncomingWebhook hmacConst parseConst "secret" "{}"
        (some ("sha256=" ++
          "1111111111111111111111111111111111111111111111111111111111111111"))
        pubAllOk =
      { response := .unauthorized, attempted := [], enqueued := [] }) ∧
    (handleIncomingWebhook hmacConst parseConst "secret" "{}"
        (some zSig64) pubAllOk =
      { response :=
          .crash "RangeError: Input buffers must have the same byte length",
        attempted := [], enqueued := [] }) ∧
    (handleIncomingWebhook hmacConst parseConst "secret" "{}"
        (some ("sha256=" ++ hmacConst "secret" "{}")) pubAllOk =
      processWebhookBody (parseConst "{}") pubAllOk) := by
  have hd : HexDigest64 (hmacConst "secret" "{}") := by
    constructor <;> decide
  have h := C3_signature_gate hmacConst parseConst "secret" "{}" pubAllOk hd
  exact ⟨h.1,
    h.2.1 "bogus" (by decide),
    h.2.2.1 "sha256=abc" (by decide) (by decide),
    h.2.2.2.1 _ (by decide) (by decide) (by decide) (by decide),
    h.2.2.2.2.1 zSig64 (by decide) (by decide) (by decide),
    h.2.2.2.2.2.2⟩

/-! ## Ingress: GET handshake and fan-out -/

/-- Counterexample to C9 as stated: a GET whose verification token equals
the configured token is still answered 403 when hub.mode is not
"subscribe"; the handler requires the mode check in addition to the token
match. -/
theorem C9_counterexample :
    ({ mode := some "unsubscribe", verify_token := some "tok123",
       challenge := some "chal" } : VerifyQuery).verify_token =
      some "tok123" ∧
    webhookRoute hmacConst parseConst "tok123" "secret" "GET"
        { mode := some "unsubscribe", verify_token := some "tok123",
          challenge := some "chal" } "" none pubAllOk =
      { response := .forbidden, attempted := [], enqueued := [] } ∧
    (IngressResp.forbidden ≠ .okChallenge (some "chal")) := by
  refine ⟨rfl, by decide, by decide⟩

/-- C9 as amended: a GET is answered 200 echoing the caller challenge
exactly when hub.mode is "subscribe" and the verification token matches the
configured token; otherwise (mode missing or different, or token mismatch)
it is answered 403.  In both cases nothing is enqueued and no state is
touched. -/
theorem C9_handshake (hmacHex : String → String → String)
    (parse : String → WhatsAppWebhookBody)
    (cfgVerifyToken appSecret rawBody : String) (q : VerifyQuery)
    (signature : Option String) (publishOk : Nat → Bool) :
    (q.mode = some "subscribe" ∧ q.verify_token = some cfgVerifyToken →
      webhookRoute hmacHex parse cfgVerifyToken appSecret "GET" q rawBody
          signature publishOk =
        { response := .okChallenge q.challenge, attempted := [],
          enqueued := [] }) ∧
    (¬ (q.mode = some "subscribe" ∧ q.verify_token = some cfgVerifyToken) →
      webhookRoute hmacHex parse cfgVerifyToken appSecret "GET" q rawBody
          signature publishOk =
        { response := .forbidden, attempted := [], enqueued := [] }) := by
  constructor
  · intro h
    simp [webhookRoute, handleVerification, h.1, h.2]
  · intro h
    simp [webhookRoute, handleVerification, h]

/-- Witness for C9: both sides of the handshake at concrete inputs. -/
theorem C9_handshake_witness :
    webhookRoute hmacConst parseConst "tok123" "secret" "GET"
        { mode := some "subscribe", verify_token := some "tok123",
          challenge := some "chal" } "" none pubAllOk =
      { response := .okChallenge (some "chal"), attempted := [],
        enqueued := [] } ∧
    webhookRoute hmacConst parseConst "tok123" "secret" "GET"
        { mode := some "subscribe", verify_token := some "wrong",
          challenge := some "chal" } "" none pubAllOk =
      { response := .forbidden, attempted := [], enqueued := [] } :=
  ⟨(C9_handshake hmacConst parseConst "tok123" "secret" ""
      { mode := some "subscribe", verify_token := some "tok123",
        challenge := some "chal" } none pubAllOk).1 ⟨rfl, rfl⟩,
   (C9_handshake hmacConst parseConst "tok123" "secret" ""
      { mode := some "subscribe", verify_token := some "wrong",
        challenge := some "chal" } none pubAllOk).2 (by decide)⟩

/-- C7: under a correctly signed payload with the provider object tag and
at least one extracted message, every extracted message gets its own
publish attempt regardless of the outcomes of the other publishes, the
handler answers 200 with the count of extracted units, and the enqueued
units are exactly those whose publish fulfilled. -/
theorem C7_fanout_isolation (hmacHex : String → String → String)
    (parse : String → WhatsAppWebhookBody) (appSecret rawBody : String)
    (publishOk : Nat → Bool)
    (hobj : (parse rawBody).object = "whatsapp_business_account")
    (hne : extractMessageItems (parse rawBody) ≠ []) :
    (handleIncomingWebhook hmacHex parse appSecret rawBody
        (some ("sha256=" ++ hmacHex appSecret rawBody)) publishOk).attempted
      = extractMessageItems (parse rawBody) ∧
    (handleIncomingWebhook hmacHex parse appSecret rawBody
        (some ("sha256=" ++ hmacHex appSecret rawBody)) publishOk).response
      = .okQueued (extractMessageItems (parse rawBody)).length ∧
    (handleIncomingWebhook hmacHex parse appSecret rawBody
        (some ("sha256=" ++ hmacHex appSecret rawBody)) publishOk).enqueued
      = ((extractMessageItems (parse rawBody)).enum.filter
          (fun p => publishOk p.1)).map Prod.snd := by
  have hv := validate_canonical_sig hmacHex appSecret rawBody
  have hlen : (extractMessageItems (parse rawBody)).length ≠ 0 := by
    simpa [List.length_eq_zero] using hne
  refine ⟨?_, ?_, ?_⟩ <;>
    simp [handleIncomingWebhook, hv, processWebhookBody, hobj, hlen]

/-- Witness for C7: a payload with two messages where the first publish
rejects; both publishes are attempted, the handler reports count 2, and
the second message is enqueued. -/
theorem C7_fanout_isolation_witness :
    (handleIncomingWebhook hmacConst parseTwoMessages "secret" "raw"
        (some ("sha256=" ++ hmacConst "secret" "raw")) pubFailFirst).attempted
      = extractMessageItems (parseTwoMessages "raw") ∧
    (handleIncomingWebhook hmacConst parseTwoMessages "secret" "raw"
        (some ("sha256=" ++ hmacConst "secret" "raw")) pubFailFirst).response
      = .okQueued (extractMessageItems (parseTwoMessages "raw")).length ∧
    (handleIncomingWebhook hmacConst parseTwoMessages "secret" "raw"
        (some ("sha256=" ++ hmacConst "secret" "raw")) pubFailFirst).enqueued
      = ((extractMessageItems (parseTwoMessages "raw")).enum.filter
          (fun p => pubFailFirst p.1)).map Prod.snd :=
  C7_fanout_isolation hmacConst parseTwoMessages "secret" "raw" pubFailFirst
    (by decide) (by decide)

/-! ## Idempotency ledger -/

/-- Membership in the ledger after appending one row. -/
theorem ledgerHas_append_one (led : Ledger) (row : ProcessedRow)
    (m : String) :
    ledgerHas (led ++ [row]) m = (ledgerHas led m || decide (row.wamid = m)) := by
  simp [ledgerHas, List.any_append]

/-- C4: with the storage behaving normally, claimMessageId returns true
exactly on the call that created the row (no row for the id existed) and
false exactly when the insert hits unique violation 23505 (a row existed,
as after any earlier successful claim); any other storage error code is
thrown, never reported as a duplicate. -/
theorem C4_claim_semantics :
    (∀ (led : Ledger) (w p : String), ledgerHas led w = false →
      claimMessageId led w p none =
        (led ++ [{ wamid := w, user_phone := p, processed := false,
                   error := none }], .ok true)) ∧
    (∀ (led : Ledger) (w p : String), ledgerHas led w = true →
      claimMessageId led w p none = (led, .ok false)) ∧
    (∀ (led : Ledger) (w p code emsg : String), code ≠ "23505" →
      claimMessageId led w p (some (code, emsg)) =
        (led, .error ("Idempotency check failed: " ++ emsg))) ∧
    (∀ (led : Ledger) (w p p2 : String), ledgerHas led w = false →
      (claimMessageId (claimMessageId led w p none).1 w p2 none).2 =
        .ok false) := by
  refine ⟨?_, ?_, ?_, ?_⟩
  · intro led w p h
    simp [claimMessageId, supabaseInsertProcessed, h]
  · intro led w p h
    simp [claimMessageId, supabaseInsertProcessed, h]
  · intro led w p code emsg h
    simp [claimMessageId, supabaseInsertProcessed, h]
  · intro led w p p2 h
    have h1 : (claimMessageId led w p none).1 =
        led ++ [{ wamid := w, user_phone := p, processed := false,
                  error := none }] := by
      simp [claimMessageId, supabaseInsertProcessed, h]
    rw [h1]
    have h2 : ledgerHas
        (led ++ [{ wamid := w, user_phone := p, processed := false,
                   error := none }]) w = true := by
      rw [ledgerHas_append_one]
      simp
    simp [claimMessageId, supabaseInsertProcessed, h2]

/-- Witness for C4: first claim of a fresh id is true, the sequential
second claim is false, and a non-23505 storage error is thrown. -/
theorem C4_claim_semantics_witness :
    claimMessageId [] "wamid.AAA1" "549111" none =
      ([{ wamid := "wamid.AAA1", user_phone := "549111",
          processed := false, error := none }], .ok true) ∧
    (claimMessageId (claimMessageId [] "wamid.AAA1" "549111" none).1
        "wamid.AAA1" "549111" none).2 = .ok false ∧
    claimMessageId [] "wamid.AAA1" "549111" (some ("57014", "timeout")) =
      ([], .error "Idempotency check failed: timeout") :=
  ⟨C4_claim_semantics.1 [] "wamid.AAA1" "549111" (by decide),
   C4_claim_semantics.2.2.2 [] "wamid.AAA1" "549111" "549111" (by decide),
   C4_claim_semantics.2.2.1 [] "wamid.AAA1" "549111" "57014" "timeout"
     (by decide)⟩

/-! ## Worker: duplicate short-circuit -/

/-- C5: a worker delivery whose message id is already present in the
ledger is answered 200 duplicate immediately and the delivery has no
observable side effects at all: no event is emitted and the ledger is
unchanged. -/
theorem C5_duplicate_short_circuit (led : Ledger) (d : Delivery)
    (sigv : String) (hm : d.method = "POST")
    (hs : d.signature = some sigv) (hv : d.env.brokerSigValid = true)
    (hf : d.env.claimFault = none)
    (hdup : ledgerHas led d.msg.id = true) :
    processDelivery led d = (led, .okDuplicate d.msg.id, []) := by
  simp [processDelivery, hm, hs, hv, claimMessageId, supabaseInsertProcessed,
    hf, hdup]

/-- Witness for C5: a concrete duplicate delivery is short-circuited. -/
theorem C5_duplicate_short_circuit_witness :
    processDelivery [rowMsg1] deliveryTextNull =
      ([rowMsg1], .okDuplicate "wamid.AAA1", []) :=
  C5_duplicate_short_circuit [rowMsg1] deliveryTextNull "upstash-sig"
    (by decide) (by decide) (by decide) (by decide) (by decide)

/-! ## Worker: unrecognized input is terminal success -/

/-- Ledger membership at a cons cell. -/
theorem ledgerHas_cons (r : ProcessedRow) (rest : Ledger) (m : String) :
    ledgerHas (r :: rest) m = (decide (r.wamid = m) || ledgerHas rest m) := by
  simp [ledgerHas]

/-- Marking the freshly inserted row processed finds exactly that row with
the processed flag set, provided no earlier row held the id. -/
theorem findRow_mark_append (led : Ledger) (row : ProcessedRow)
    (h : ledgerHas led row.wamid = false) :
    findRow (markMessageProcessed (led ++ [row]) row.wamid) row.wamid =
      some { row with processed := true } := by
  induction led with
  | nil => simp [findRow, markMessageProcessed, List.find?]
  | cons r rest ih =>
    rw [ledgerHas_cons] at h
    rcases Bool.or_eq_false_iff.mp h with ⟨h1, h2⟩
    have hr : ¬ (r.wamid = row.wamid) := of_decide_eq_false h1
    simp only [List.cons_append, markMessageProcessed, List.map_cons,
      findRow, if_neg hr, List.find?, h1]
    exact ih h2

/-- C8: a delivery of a text, audio or image message on which the extractor
returns null ends as a terminal success: the worker answers 200 processed,
sends exactly one help or guidance reply, inserts no transaction, sends no
confirmation, and the ledger row of the id ends completed (processed true,
no error recorded). -/
theorem C8_null_extraction_terminal_success (led : Ledger) (d : Delivery)
    (sigv : String) (hm : d.method = "POST") (hs : d.signature = some sigv)
    (hv : d.env.brokerSigValid = true) (hf : d.env.claimFault = none)
    (hnew : ledgerHas led d.msg.id = false)
    (hparse : d.env.parseResult = .ok none)
    (hsend : d.env.sendResult = .ok ())
    (hkind : (d.msg.type = "text" ∧ ∃ t, d.msg.text = some t ∧ t ≠ "")
      ∨ (d.msg.type = "audio" ∧ (∃ a, d.msg.audioId = some a) ∧
         ∃ mc, d.env.mediaResult = .ok mc)
      ∨ (d.msg.type = "image" ∧ (∃ i, d.msg.imageId = some i) ∧
         ∃ mc, d.env.mediaResult = .ok mc)) :
    (processDelivery led d).2.1 = .okProcessed d.msg.id ∧
    countHelp (processDelivery led d).2.2 d.msg.id = 1 ∧
    countTx (processDelivery led d).2.2 d.msg.id = 0 ∧
    countConfirm (processDelivery led d).2.2 d.msg.id = 0 ∧
    findRow (processDelivery led d).1 d.msg.id =
      some { wamid := d.msg.id, user_phone := normalizePhone d.msg.sender,
             processed := true, error := none } := by
  have hfind := findRow_mark_append led
    { wamid := d.msg.id, user_phone := normalizePhone d.msg.sender,
      processed := false, error := none } hnew
  rcases hkind with ⟨ht, t, htx, htne⟩ | ⟨ht, ⟨a, ha⟩, mc, hmc⟩ |
    ⟨ht, ⟨i, hi⟩, mc, hmc⟩
  · have hpm : processMessage d.msg d.env =
        ([.extractCall d.msg.id, .helpReply d.msg.id], none) := by
      simp [processMessage, ht, htx, htne, hparse, hsend]
    have hstep : processDelivery led d =
        (markMessageProcessed
          (led ++ [{ wamid := d.msg.id,
                     user_phone := normalizePhone d.msg.sender,
                     processed := false, error := none }]) d.msg.id,
         .okProcessed d.msg.id,
         [.extractCall d.msg.id, .helpReply d.msg.id]) := by
      simp [processDelivery, hm, hs, hv, claimMessageId,
        supabaseInsertProcessed, hf, hnew, hpm]
    rw [hstep]
    exact ⟨rfl, by simp [countHelp], by simp [countTx],
      by simp [countConfirm], hfind⟩
  · have hpm : processMessage d.msg d.env =
        ([.mediaFetch d.msg.id, .extractCall d.msg.id,
          .helpReply d.msg.id], none) := by
      simp [processMessage, ht, ha, hmc, hparse, hsend]
    have hstep : processDelivery led d =
        (markMessageProcessed
          (led ++ [{ wamid := d.msg.id,
                     user_phone := normalizePhone d.msg.sender,
                     processed := false, error := none }]) d.msg.id,
         .okProcessed d.msg.id,
         [.mediaFetch d.msg.id, .extractCall d.msg.id,
          .helpReply d.msg.id]) := by
      simp [processDelivery, hm, hs, hv, claimMessageId,
        supabaseInsertProcessed, hf, hnew, hpm]
    rw [hstep]
    exact ⟨rfl, by simp [countHelp], by simp [countTx],
      by simp [countConfirm], hfind⟩
  · have hpm : processMessage d.msg d.env =
        ([.mediaFetch d.msg.id, .extractCall d.msg.id,
          .helpReply d.msg.id], none) := by
      simp [processMessage, ht, hi, hmc, hparse, hsend]
    have hstep : processDelivery led d =
        (markMessageProcessed
          (led ++ [{ wamid := d.msg.id,
                     user_phone := normalizePhone d.msg.sender,
                     processed := false, error := none }]) d.msg.id,
         .okProcessed d.msg.id,
         [.mediaFetch d.msg.id, .extractCall d.msg.id,
          .helpReply d.msg.id]) := by
      simp [processDelivery, hm, hs, hv, claimMessageId,
        supabaseInsertProcessed, hf, hnew, hpm]
    rw [hstep]
    exact ⟨rfl, by simp [countHelp], by simp [countTx],
      by simp [countConfirm], hfind⟩

/-- Witness for C8: a concrete fresh text delivery whose extraction returns
null ends with one help reply, no transaction, no confirmation, a 200, and
a completed ledger row. -/
theorem C8_null_extraction_terminal_success_witness :
    (processDelivery [] deliveryTextNull).2.1 =
      .okProcessed msgText1.id ∧
    countHelp (processDelivery [] deliveryTextNull).2.2 msgText1.id = 1 ∧
    countTx (processDelivery [] deliveryTextNull).2.2 msgText1.id = 0 ∧
    countConfirm (processDelivery [] deliveryTextNull).2.2 msgText1.id = 0 ∧
    findRow (processDelivery [] deliveryTextNull).1 msgText1.id =
      some { wamid := msgText1.id,
             user_phone := normalizePhone msgText1.sender,
             processed := true, error := none } :=
  C8_null_extraction_terminal_success [] deliveryTextNull "upstash-sig"
    (by decide) (by decide) (by decide) (by decide) (by decide) rfl rfl
    (Or.inl ⟨rfl, "hola que tal", rfl, by decide⟩)

/-! ## Worker: at-most-once side effects per message id -/

/-- Updating a row field never changes which wamids are in the ledger. -/
theorem ledgerHas_map_preserving (led : Ledger)
    (f : ProcessedRow → ProcessedRow)
    (hf : ∀ r, (f r).wamid = r.wamid) (m : String) :
    ledgerHas (led.map f) m = ledgerHas led m := by
  induction led with
  | nil => rfl
  | cons r rest ih =>
    simp only [List.map_cons, ledgerHas_cons, hf r, ih]

/-- markMessageProcessed preserves ledger membership. -/
theorem ledgerHas_markMessageProcessed (led : Ledger) (i m : String) :
    ledgerHas (markMessageProcessed led i) m = ledgerHas led m := by
  refine ledgerHas_map_preserving led _ (fun r => ?_) m
  by_cases h : r.wamid = i <;> simp [h]

/-- markMessageError preserves ledger membership. -/
theorem ledgerHas_markMessageError (led : Ledger) (i e m : String) :
    ledgerHas (markMessageError led i e) m = ledgerHas led m := by
  refine ledgerHas_map_preserving led _ (fun r => ?_) m
  by_cases h : r.wamid = i <;> simp [h]

/-- Outcomes of claimMessageId: either the ledger is unchanged and the
result is not a successful claim, or the id was fresh, the row was
appended, and the result is a successful claim. -/
theorem claimMessageId_cases (led : Ledger) (w p : String)
    (fault : Option (String × String)) :
    ((claimMessageId led w p fault).1 = led ∧
      (claimMessageId led w p fault).2 ≠ .ok true) ∨
    ((claimMessageId led w p fault).1 =
        led ++ [{ wamid := w, user_phone := p, processed := false,
                  error := none }] ∧
      (claimMessageId led w p fault).2 = .ok true ∧
      ledgerHas led w = false) := by
  unfold claimMessageId supabaseInsertProcessed
  rcases fault with _ | ⟨code, msg⟩
  · by_cases h : ledgerHas led w = true
    · simp [h]
    · simp at h
      simp [h]
  · by_cases hc : code = "23505" <;> simp [hc]

/-- Every event of the persistence tail is tagged with the processed id,
with at most one transaction insert and one confirmation reply. -/
theorem saveAndConfirm_event_facts (w : String) (env : WorkerEnv) :
    (∀ e ∈ (saveAndConfirm w env).1, e.wamid = w) ∧
    countTx (saveAndConfirm w env).1 w ≤ 1 ∧
    countConfirm (saveAndConfirm w env).1 w ≤ 1 := by
  unfold saveAndConfirm
  repeat' split
  all_goals
    simp_all [countTx, countConfirm, Event.wamid, List.countP_cons,
      List.countP_nil]

/-- Every event of one pipeline run is tagged with the processed message
id, and one run records at most one transaction insert and at most one
confirmation reply. -/
theorem processMessage_event_facts (msg : WhatsAppMessage)
    (env : WorkerEnv) :
    (∀ e ∈ (processMessage msg env).1, e.wamid = msg.id) ∧
    countTx (processMessage msg env).1 msg.id ≤ 1 ∧
    countConfirm (processMessage msg env).1 msg.id ≤ 1 := by
  have hsc := saveAndConfirm_event_facts msg.id env
  unfold processMessage
  repeat' split
  all_goals
    simp_all [countTx, countConfirm, Event.wamid, List.countP_cons,
      List.countP_nil]

/-- Events whose tag differs from `m` contribute nothing to the per-id
side-effect counts. -/
theorem counts_zero_of_other_tag (evs : List Event) (m : String)
    (h : ∀ e ∈ evs, e.wamid ≠ m) :
    countTx evs m = 0 ∧ countConfirm evs m = 0 := by
  constructor
  · refine List.countP_eq_zero.mpr (fun e he => ?_)
    have hw := h e he
    cases e <;> simp_all [Event.wamid]
  · refine List.countP_eq_zero.mpr (fun e he => ?_)
    have hw := h e he
    cases e <;> simp_all [Event.wamid]

/-- Per-delivery facts for the at-most-once invariant: membership is
monotone; a delivery of an already-claimed id emits no events; every event
is tagged with the delivered id; at most one transaction and one
confirmation are emitted; and a delivery that emits anything leaves its id
in the ledger. -/
theorem processDelivery_step (led : Ledger) (d : Delivery) :
    (∀ m, ledgerHas led m = true →
      ledgerHas (processDelivery led d).1 m = true) ∧
    (ledgerHas led d.msg.id = true → (processDelivery led d).2.2 = []) ∧
    (∀ e ∈ (processDelivery led d).2.2, e.wamid = d.msg.id) ∧
    countTx (processDelivery led d).2.2 d.msg.id ≤ 1 ∧
    countConfirm (processDelivery led d).2.2 d.msg.id ≤ 1 ∧
    ((processDelivery led d).2.2 ≠ [] →
      ledgerHas (processDelivery led d).1 d.msg.id = true) := by
  unfold processDelivery
  split
  · simp [countTx, countConfirm]
  · split
    · simp [countTx, countConfirm]
    · split
      · simp [countTx, countConfirm]
      · dsimp only
        rcases hcm : claimMessageId led d.msg.id
            (normalizePhone d.msg.sender) d.env.claimFault with ⟨led2, res⟩
        have hcc := claimMessageId_cases led d.msg.id
            (normalizePhone d.msg.sender) d.env.claimFault
        rw [hcm] at hcc
        simp only at hcc
        rcases res with e | b
        · rcases hcc with ⟨hl, _⟩ | ⟨_, habs, _⟩
          · subst hl
            simp [countTx, countConfirm]
          · exact absurd habs (by simp)
        · cases b
          · rcases hcc with ⟨hl, _⟩ | ⟨_, habs, _⟩
            · subst hl
              simp [countTx, countConfirm]
            · exact absurd habs (by simp)
          · rcases hcc with ⟨_, habs⟩ | ⟨hl, _, hfresh⟩
            · exact absurd rfl habs
            · subst hl
              have hpm := processMessage_event_facts d.msg d.env
              rcases hpme : processMessage d.msg d.env with ⟨evs, err⟩
              rw [hpme] at hpm
              simp only at hpm
              have hmem : ∀ m, ledgerHas led m = true →
                  ledgerHas (led ++
                    [{ wamid := d.msg.id,
                       user_phone := normalizePhone d.msg.sender,
                       processed := false, error := none }]) m = true := by
                intro m hm
                rw [ledgerHas_append_one]
                simp [hm]
              have hself : ledgerHas (led ++
                  [{ wamid := d.msg.id,
                     user_phone := normalizePhone d.msg.sender,
                     processed := false, error := none }]) d.msg.id
                  = true := by
                rw [ledgerHas_append_one]
                simp
              have hdup : ledgerHas led d.msg.id = true → evs = [] := by
                intro hd
                rw [hd] at hfresh
                simp at hfresh
              rcases err with _ | e
              · dsimp only
                refine ⟨?_, hdup, hpm.1, hpm.2.1, hpm.2.2, ?_⟩
                · intro m hm
                  rw [ledgerHas_markMessageProcessed]
                  exact hmem m hm
                · intro _
                  rw [ledgerHas_markMessageProcessed]
                  exact hself
              · dsimp only
                refine ⟨?_, hdup, hpm.1, hpm.2.1, hpm.2.2, ?_⟩
                · intro m hm
                  rw [ledgerHas_markMessageError]
                  exact hmem m hm
                · intro _
                  rw [ledgerHas_markMessageError]
                  exact hself

/-- The at-most-once invariant over a delivery sequence: once the id is in
the ledger no further events for it are emitted, and in any case at most
one transaction and one confirmation are emitted for it. -/
theorem runDeliveries_inv (ds : List Delivery) :
    ∀ (led : Ledger) (m : String),
      (ledgerHas led m = true →
        countTx (runDeliveries led ds).2 m = 0 ∧
        countConfirm (runDeliveries led ds).2 m = 0) ∧
      countTx (runDeliveries led ds).2 m ≤ 1 ∧
      countConfirm (runDeliveries led ds).2 m ≤ 1 := by
  induction ds with
  | nil => intro led m; simp [runDeliveries, countTx, countConfirm]
  | cons d ds ih =>
    intro led m
    have hstep := processDelivery_step led d
    have hrest := ih (processDelivery led d).1 m
    have hsplit : (runDeliveries led (d :: ds)).2 =
        (processDelivery led d).2.2 ++
          (runDeliveries (processDelivery led d).1 ds).2 := rfl
    have htx : countTx (runDeliveries led (d :: ds)).2 m =
        countTx (processDelivery led d).2.2 m +
          countTx (runDeliveries (processDelivery led d).1 ds).2 m := by
      rw [hsplit]; exact List.countP_append _ _ _
    have hcf : countConfirm (runDeliveries led (d :: ds)).2 m =
        countConfirm (processDelivery led d).2.2 m +
          countConfirm (runDeliveries (processDelivery led d).1 ds).2 m := by
      rw [hsplit]; exact List.countP_append _ _ _
    by_cases hin : ledgerHas led m = true
    · -- the id is already claimed: the step emits nothing for it
      have hz : countTx (processDelivery led d).2.2 m = 0 ∧
          countConfirm (processDelivery led d).2.2 m = 0 := by
        by_cases hd : d.msg.id = m
        · rw [hstep.2.1 (hd ▸ hin)]
          simp [countTx, countConfirm]
        · exact counts_zero_of_other_tag _ m
            (fun e he => by rw [hstep.2.2.1 e he]; exact hd)
      have hz2 := (hrest.1 (hstep.1 m hin))
      constructor
      · intro _
        constructor
        · rw [htx, hz.1, hz2.1]
        · rw [hcf, hz.2, hz2.2]
      · constructor
        · rw [htx, hz.1, hz2.1]
          omega
        · rw [hcf, hz.2, hz2.2]
          omega
    · refine ⟨fun h => absurd h hin, ?_, ?_⟩
      · by_cases hd : d.msg.id = m
        · by_cases hemp : (processDelivery led d).2.2 = []
          · rw [htx, hemp]
            simpa [countTx] using hrest.2.1
          · have hz2 := hrest.1 (hd ▸ hstep.2.2.2.2.2 hemp)
            rw [htx, hz2.1]
            simpa using (hd ▸ hstep.2.2.2.1)
        · have hz := counts_zero_of_other_tag
            (processDelivery led d).2.2 m
            (fun e he => by rw [hstep.2.2.1 e he]; exact hd)
          rw [htx, hz.1]
          simpa using hrest.2.1
      · by_cases hd : d.msg.id = m
        · by_cases hemp : (processDelivery led d).2.2 = []
          · rw [hcf, hemp]
            simpa [countConfirm] using hrest.2.2
          · have hz2 := hrest.1 (hd ▸ hstep.2.2.2.2.2 hemp)
            rw [hcf, hz2.2]
            simpa using (hd ▸ hstep.2.2.2.2.1)
        · have hz := counts_zero_of_other_tag
            (processDelivery led d).2.2 m
            (fun e he => by rw [hstep.2.2.1 e he]; exact hd)
          rw [hcf, hz.2]
          simpa using hrest.2.2

/-- C1: across any sequence of worker deliveries starting from an empty
processed_messages table — including retries of a unit whose earlier run
claimed the id and then failed before persisting — at most one transaction
insert and at most one confirmation reply ever happen for any message id:
the first successful claim sends every later attempt into the duplicate
path. -/
theorem C1_at_most_once_per_message (ds : List Delivery) (m : String) :
    countTx (runDeliveries [] ds).2 m ≤ 1 ∧
    countConfirm (runDeliveries [] ds).2 m ≤ 1 :=
  ⟨(runDeliveries_inv ds [] m).2.1, (runDeliveries_inv ds [] m).2.2⟩

end Suma
